import Mathlib

/-
Verification development for the turn-taking coordinator of the
InteractiveAvatarNextJSDemoV3 repository.

The embedding below translates, definition by definition, the coordination
logic of the Web-Speech variant of the widget (src/unnamed/part_001, first
revision): the `handleUserSpeech` / `onResult` / `speakWithAvatar` handlers,
the STREAM_READY / STREAM_DISCONNECTED / AVATAR_START_TALKING /
AVATAR_STOP_TALKING event handlers registered in `startSession`, and the
`resetSession` teardown, together with the chat-API wrappers (`callChatAPI`
in both src/unnamed/part_001 and src/components/InteractiveAvatar.tsx), the
voice-activity gate of the second revision in
src/components/InteractiveAvatar.tsx (`startVAD`), and the history
truncation of `generateChat` in src/app/api/chat/route.ts.

React refs become record fields; each async handler is split at its await
points into separate events of a small-step semantics, so that interleavings
of the browser event loop (which runs handlers and resolved continuations
one at a time) are exactly the traces of the step function.
-/

namespace GameAvatar

/-- Chat roles as used by the ChatMessage interface of part_001. -/
inductive Role where
  | user
  | assistant
  deriving DecidableEq

/-- ChatMessage record: one ConversationTurn of the chat history. -/
structure ChatMessage where
  role : Role
  content : String
  deriving DecidableEq

/-- State of the WebSpeechRecognizer as seen through its callers:
`listening` after start()/resume(), `paused` after pause().  The recognizer
itself lives outside src/; only the coordinator transitions modelled here
touch it. -/
inductive MicState where
  | listening
  | paused
  deriving DecidableEq

/-- UserStats fields the coordinator reads (stats.total_games,
stats.best_score in the STREAM_READY handler of part_001). -/
structure UserStats where
  total_games : Nat
  best_score : Nat
  deriving DecidableEq

/-- Externally observable calls the coordinator makes.  Microphone
pause/resume/destroy are kept in the state (`webSpeech`) instead, since the
recognizer object is owned by the component. -/
inductive Effect where
  | fetchToken
  | initAvatar
  | startAvatar
  | chatRequest (reqType : String) (message : String) (history : List ChatMessage)
  | speak (text : String)
  | interruptAvatar
  | stopAvatar
  deriving DecidableEq

/-- Coordinator state: the React refs and state hooks of the part_001
component.  `pendingGreetings` counts STREAM_READY handler instances that
passed the hasGreeted check and are awaiting the 1500 ms settle delay (the
guard is re-checked nowhere after the await).  `pending` is a ghost audit
counter: the number of callChatAPI continuations (.then callbacks)
outstanding; the source creates exactly one per accepted final utterance. -/
structure CoordState where
  hasStarted : Bool
  hasGreeted : Bool
  isProcessing : Bool
  isAvatarSpeaking : Bool
  isLoading : Bool
  isListening : Bool
  interimTranscript : String
  chatHistory : List ChatMessage
  userName : String
  userStats : Option UserStats
  webSpeech : Option MicState
  avatarPresent : Bool
  pendingGreetings : Nat
  pending : Nat
  deriving DecidableEq

/-- webSpeechRef.current?.pause(): a no-op when the recognizer is absent. -/
def pauseMic (m : Option MicState) : Option MicState :=
  m.map fun _ => MicState.paused

/-- webSpeechRef.current?.resume(): a no-op when the recognizer is absent. -/
def resumeMic (m : Option MicState) : Option MicState :=
  m.map fun _ => MicState.listening

/-- speakWithAvatar (part_001 lines 117-140).  `speakOk` is whether the
avatar.speak promise resolves; on rejection the catch block clears the
speaking flag and resumes the recognizer, and nothing is re-thrown.  The
speak attempt itself is recorded as an effect in both cases. -/
def speakWithAvatar (s : CoordState) (text : String) (speakOk : Bool) :
    CoordState × List Effect :=
  if !s.avatarPresent || text = "" then (s, [])
  else
    let s1 := { s with isAvatarSpeaking := true, webSpeech := pauseMic s.webSpeech }
    if speakOk then (s1, [Effect.speak text])
    else
      ({ s1 with isAvatarSpeaking := false, webSpeech := resumeMic s1.webSpeech },
       [Effect.speak text])

/-- handleUserSpeech (part_001 lines 145-192), synchronous part up to the
issue of the callChatAPI request.  The interrupt() call is awaited with
failures ignored; the chat request carries `prev`, the history before the
user turn is appended.  The .then continuation is a separate step
(`chatReplyResolved`). -/
def handleUserSpeech (s : CoordState) (transcript : String) :
    CoordState × List Effect :=
  if s.isAvatarSpeaking then (s, [])
  else if transcript.trim = "" || s.isProcessing then (s, [])
  else
    ({ s with isProcessing := true, isLoading := true, interimTranscript := "",
              chatHistory := s.chatHistory ++ [⟨Role.user, transcript⟩],
              pending := s.pending + 1 },
     (if s.avatarPresent then [Effect.interruptAvatar] else []) ++
       [Effect.chatRequest "chat" transcript s.chatHistory])

/-- The .then continuation of the callChatAPI promise inside
handleUserSpeech: appends the assistant turn, fires speakWithAvatar without
awaiting it, then clears isLoading and isProcessing. -/
def chatReplyResolved (s : CoordState) (reply : String) (speakOk : Bool) :
    CoordState × List Effect :=
  let s1 := { s with chatHistory := s.chatHistory ++ [⟨Role.assistant, reply⟩] }
  let r := speakWithAvatar s1 reply speakOk
  ({ r.1 with isLoading := false, isProcessing := false }, r.2)

/-- onResult callback passed to the WebSpeechRecognizer (part_001 lines
217-229): utterances are dropped outright while the avatar speaks; a final
result clears the interim transcript and runs handleUserSpeech; an interim
result only updates the interim transcript. -/
def onResult (s : CoordState) (transcript : String) (isFinal : Bool) :
    CoordState × List Effect :=
  if s.isAvatarSpeaking then (s, [])
  else if isFinal then
    handleUserSpeech { s with interimTranscript := "" } transcript
  else
    ({ s with interimTranscript := transcript }, [])

/-- The displayed name of the STREAM_READY handler:
userNameRef.current || the generic fallback (JS || on strings). -/
def greetName (userName : String) : String :=
  if userName = "" then "손님" else userName

/-- Greeting text computed in the STREAM_READY handler (part_001 lines
329-337).  JS truthiness of stats?.total_games together with
parseInt(totalGames) > 0 collapses to total_games > 0 on the Nat model. -/
def greetingText (userName : String) (stats : Option UserStats) : String :=
  match stats with
  | some st =>
      if st.total_games > 0 then
        "안녕하세요, " ++ greetName userName ++ "님! 다시 만나서 반가워요. 최고 점수 " ++
          toString st.best_score ++ "점이네요!"
      else
        "안녕하세요, " ++ greetName userName ++ "님! 저는 두뇌 게임 도우미예요."
  | none => "안녕하세요, " ++ greetName userName ++ "님! 저는 두뇌 게임 도우미예요."

/-- STREAM_READY handler (part_001 lines 323-344), synchronous part: the
hasGreeted guard is evaluated here, before the 1500 ms settle delay; a
handler instance that passes it is recorded in pendingGreetings. -/
def onStreamReady (s : CoordState) : CoordState × List Effect :=
  if s.hasGreeted then (s, [])
  else ({ s with pendingGreetings := s.pendingGreetings + 1 }, [])

/-- Continuation of a STREAM_READY handler instance after its settle delay:
computes the greeting, awaits speakWithAvatar, replaces the chat history
with the single assistant turn, and only then sets hasGreeted.  The source
does not re-check hasGreeted after the await. -/
def greetingSettleDone (s : CoordState) (speakOk : Bool) :
    CoordState × List Effect :=
  if s.pendingGreetings = 0 then (s, [])
  else
    let s0 := { s with pendingGreetings := s.pendingGreetings - 1 }
    let g := greetingText s0.userName s0.userStats
    let r := speakWithAvatar s0 g speakOk
    ({ r.1 with chatHistory := [⟨Role.assistant, g⟩], hasGreeted := true }, r.2)

/-- AVATAR_START_TALKING handler (part_001 lines 355-360). -/
def onAvatarStartTalking (s : CoordState) : CoordState × List Effect :=
  ({ s with isAvatarSpeaking := true, webSpeech := pauseMic s.webSpeech }, [])

/-- AVATAR_STOP_TALKING handler (part_001 lines 362-370), synchronous part:
the speaking flag drops immediately; the recognizer resume happens only
after a 500 ms settle delay (`stopSettleDone`). -/
def onAvatarStopTalking (s : CoordState) : CoordState × List Effect :=
  ({ s with isAvatarSpeaking := false }, [])

/-- Continuation of the AVATAR_STOP_TALKING handler after its 500 ms delay. -/
def stopSettleDone (s : CoordState) : CoordState × List Effect :=
  ({ s with webSpeech := resumeMic s.webSpeech }, [])

/-- startSession (part_001 lines 311-385).  hasStartedRef is tested and set
synchronously before the first await, so a second call is a no-op.  On the
success path the token is fetched, the avatar initialized and started, and
the recognizer created and started; on any failure the catch resets
hasStartedRef so a later start can retry (the token fetch is the first
awaited call, recorded as attempted). -/
def startSession (s : CoordState) (ok : Bool) : CoordState × List Effect :=
  if s.hasStarted then (s, [])
  else if ok then
    ({ s with hasStarted := true, avatarPresent := true,
              webSpeech := some MicState.listening },
     [Effect.fetchToken, Effect.initAvatar, Effect.startAvatar])
  else
    ({ s with hasStarted := false }, [Effect.fetchToken])

/-- resetSession (part_001 lines 278-306): destroys the recognizer, stops
the avatar tolerating errors, clears every ref and state hook, and waits a
500 ms quiescence delay.  Pending settle-delay continuations and chat
continuations are not cancelled, so pendingGreetings and the ghost pending
counter survive. -/
def resetSession (s : CoordState) : CoordState × List Effect :=
  ({ s with webSpeech := none, avatarPresent := false,
            hasStarted := false, hasGreeted := false,
            isProcessing := false, isAvatarSpeaking := false,
            userName := "", userStats := none, chatHistory := [],
            isLoading := false, isListening := false, interimTranscript := "" },
   [Effect.stopAvatar])

/-- STREAM_DISCONNECTED handler (part_001 lines 346-353): clears only the
two lifecycle flags and destroys the recognizer. -/
def onStreamDisconnected (s : CoordState) : CoordState × List Effect :=
  ({ s with hasGreeted := false, hasStarted := false, webSpeech := none }, [])

/-- useUnmount cleanup (part_001 lines 482-490): destroys the recognizer and
stops the avatar; no flag or history is cleared. -/
def onUnmount (s : CoordState) : CoordState × List Effect :=
  ({ s with webSpeech := none }, [Effect.stopAvatar])

/-- Events of the coordinator: external notifications plus the resumption
points of the async handlers. -/
inductive Event where
  | utterance (text : String) (isFinal : Bool)
  | avatarStart
  | avatarStop
  | stopSettle
  | streamReady
  | greetingSettle (speakOk : Bool)
  | chatReply (reply : String) (speakOk : Bool)
  | startRequested (ok : Bool)
  | resetRequested
  | disconnected
  | unmounted
  deriving DecidableEq

/-- One step of the event loop.  A chatReply event is the resolution of an
outstanding callChatAPI continuation; with none outstanding there is no
continuation to run. -/
def step (s : CoordState) (e : Event) : CoordState × List Effect :=
  match e with
  | Event.utterance text isFinal => onResult s text isFinal
  | Event.avatarStart => onAvatarStartTalking s
  | Event.avatarStop => onAvatarStopTalking s
  | Event.stopSettle => stopSettleDone s
  | Event.streamReady => onStreamReady s
  | Event.greetingSettle speakOk => greetingSettleDone s speakOk
  | Event.chatReply reply speakOk =>
      if s.pending = 0 then (s, [])
      else chatReplyResolved { s with pending := s.pending - 1 } reply speakOk
  | Event.startRequested ok => startSession s ok
  | Event.resetRequested => resetSession s
  | Event.disconnected => onStreamDisconnected s
  | Event.unmounted => onUnmount s

/-- Run a trace of events, accumulating the emitted effects in order. -/
def runTrace (s : CoordState) (es : List Event) : CoordState × List Effect :=
  match es with
  | [] => (s, [])
  | e :: rest =>
      let r := step s e
      let r2 := runTrace r.1 rest
      (r2.1, r.2 ++ r2.2)

/-- State of the widget before any interaction. -/
def initialState : CoordState :=
  { hasStarted := false, hasGreeted := false, isProcessing := false,
    isAvatarSpeaking := false, isLoading := false, isListening := false,
    interimTranscript := "", chatHistory := [], userName := "",
    userStats := none, webSpeech := none, avatarPresent := false,
    pendingGreetings := 0, pending := 0 }

/-- Whether an effect is a ResponseGenerator (chat API) call. -/
def isChatRequest : Effect → Bool
  | Effect.chatRequest _ _ _ => true
  | _ => false

/-- Whether an effect is an AvatarOutputSink.speak dispatch. -/
def isSpeak : Effect → Bool
  | Effect.speak _ => true
  | _ => false

/-- Whether an effect is a token fetch. -/
def isTokenFetch : Effect → Bool
  | Effect.fetchToken => true
  | _ => false

/-- Whether an effect opens a new avatar session. -/
def isInitAvatar : Effect → Bool
  | Effect.initAvatar => true
  | _ => false

/-- Number of ResponseGenerator calls among the effects. -/
def chatCalls (l : List Effect) : Nat := l.countP isChatRequest

/-- Number of speak dispatches among the effects. -/
def speakCount (l : List Effect) : Nat := l.countP isSpeak

/-- Number of token fetches among the effects. -/
def tokenFetches (l : List Effect) : Nat := l.countP isTokenFetch

/-- Number of avatar sessions opened among the effects. -/
def sessionInits (l : List Effect) : Nat := l.countP isInitAvatar

end GameAvatar

namespace ChatApi

/-- Outcome of one fetch("/api/chat") round trip as the wrapper observes it:
either the fetch itself or response.json() threw (network failure or
malformed body), or a JSON body was parsed, carrying optional string fields
`reply` and `error`.  A non-2xx status does not throw in fetch; the error
body of the route ({error: "Failed to get response"}) arrives as a parsed
body with no reply field. -/
inductive FetchOutcome where
  | fetchError
  | jsonBody (reply : Option String) (error : Option String)
  deriving DecidableEq

/-- JS truthiness of a string-or-undefined value: undefined and the empty
string are falsy. -/
def strTruthy : Option String → Bool
  | some s => s ≠ ""
  | none => false

/-- callChatAPI of src/unnamed/part_001 (lines 92-112): inside the try, the
parsed body yields result.reply || result.error || the fixed fallback; any
thrown error is caught and the catch fallback returned. -/
def callChatAPI (o : FetchOutcome) : String :=
  match o with
  | FetchOutcome.fetchError => "죄송합니다. 오류가 발생했습니다."
  | FetchOutcome.jsonBody reply err =>
      if strTruthy reply then reply.getD ""
      else if strTruthy err then err.getD ""
      else "응답을 생성하지 못했습니다."

/-- callChatAPI of src/components/InteractiveAvatar.tsx (lines 179-206):
inside the try it returns data.reply as is — `none` models the undefined
obtained when the parsed body has no reply field — and only a thrown error
is caught and replaced by the fixed fallback. -/
def callChatAPITsx (o : FetchOutcome) : Option String :=
  match o with
  | FetchOutcome.fetchError => some "죄송합니다. 일시적인 오류가 발생했습니다."
  | FetchOutcome.jsonBody reply _ => reply

end ChatApi

namespace Vad

/-- VAD_CONFIG of src/components/InteractiveAvatar.tsx (lines 554-560,
second revision).  The two thresholds are compared against the normalized
average level; they are carried here as exact rationals, and the level is a
rational as well: the gate only compares levels to thresholds, so its
branching is order-determined and does not depend on the float
representation. -/
def SILENCE_THRESHOLD : ℚ := mkRat 1 100

/-- Speech-start threshold of VAD_CONFIG, the literal 0.02. -/
def SPEECH_THRESHOLD : ℚ := mkRat 2 100

/-- Silence duration in ms after which a recording stops. -/
def SILENCE_DURATION : Nat := 1500

/-- Minimum recording time in ms before silence may stop a recording. -/
def MIN_RECORDING_TIME : Nat := 500

/-- State read and written by one tick of the 100 ms VAD interval.
`isLoadingCaptured` is the isLoading state captured by the interval closure
when startVAD ran: the closure is created inside the STREAM_READY greeting
sequence, where isLoading is false, and React state updates never reach an
already-created closure, so in the running widget this field is false.
`micPresent` models micStreamRef.current, the guard of startRecording. -/
structure VadState where
  isProcessing : Bool
  isLoadingCaptured : Bool
  isAvatarTalking : Bool
  micPresent : Bool
  isRecording : Bool
  silenceStart : Option Nat
  recordingStart : Option Nat
  deriving DecidableEq

/-- startRecording (lines 710-760): guarded on the mic stream and the
synchronous isRecordingRef; stamps recordingStartRef and clears
silenceStartRef.  The MediaRecorder construction succeeds here; on the
exceptional path the source only rolls the flag back, which no claim
touches. -/
def startRecording (s : VadState) (now : Nat) : VadState :=
  if !s.micPresent || s.isRecording then s
  else { s with isRecording := true, recordingStart := some now,
                silenceStart := none }

/-- stopRecording (lines 762-769): stops the recorder, clears the recording
flag and the silence timer. -/
def stopRecording (s : VadState) : VadState :=
  { s with isRecording := false, silenceStart := none }

/-- One tick of the startVAD interval (lines 664-699): suppressed entirely
while processing, loading (captured) or avatar-talking; otherwise starts a
recording when the level exceeds SPEECH_THRESHOLD, and while recording
tracks silence below SILENCE_THRESHOLD, stopping once the silence has
lasted strictly more than SILENCE_DURATION and the recording strictly more
than MIN_RECORDING_TIME. -/
def vadTick (s : VadState) (level : ℚ) (now : Nat) : VadState :=
  if s.isProcessing || s.isLoadingCaptured || s.isAvatarTalking then s
  else if !s.isRecording then
    if level > SPEECH_THRESHOLD then startRecording s now else s
  else
    if level < SILENCE_THRESHOLD then
      match s.silenceStart with
      | none => { s with silenceStart := some now }
      | some t0 =>
          let silenceDuration := now - t0
          let recordingDuration := now - (s.recordingStart.getD 0)
          if recordingDuration > MIN_RECORDING_TIME &&
              silenceDuration > SILENCE_DURATION then
            stopRecording s
          else s
    else { s with silenceStart := none }

end Vad

namespace ChatRoute

/-- Message record sent to the LLM by generateChat in
src/app/api/chat/route.ts; roles there are plain strings. -/
structure ApiMessage where
  role : String
  content : String
  deriving DecidableEq

/-- JavaScript Array.prototype.slice with a negative start index -n: the
last n elements, or the whole array when it is shorter. -/
def sliceLast (n : Nat) (l : List ApiMessage) : List ApiMessage :=
  l.drop (l.length - n)

/-- Message list built by generateChat (route.ts lines 127-154): the system
prompt, then history.slice(-10) mapped through an identity re-tagging, then
the current user message. -/
def generateChatMessages (systemPrompt : String) (history : List ApiMessage)
    (message : String) : List ApiMessage :=
  ⟨"system", systemPrompt⟩ :: (sliceLast 10 history ++ [⟨"user", message⟩])

end ChatRoute

open GameAvatar

/-- Helper: speakWithAvatar never touches the isProcessing flag. -/
theorem speakWithAvatar_isProcessing (s : CoordState) (text : String)
    (ok : Bool) : (speakWithAvatar s text ok).1.isProcessing = s.isProcessing := by
  unfold speakWithAvatar
  split
  · rfl
  · split <;> rfl

/-- Helper: speakWithAvatar never touches the ghost pending counter. -/
theorem speakWithAvatar_pending (s : CoordState) (text : String)
    (ok : Bool) : (speakWithAvatar s text ok).1.pending = s.pending := by
  unfold speakWithAvatar
  split
  · rfl
  · split <;> rfl

/-- Claim C1: an utterance event (final or interim) delivered while
isAvatarSpeaking is true is discarded by onResult with no state change and
no effect, in particular no chat-API call and no ConversationTurn append. -/
theorem c1_self_echo_suppression (s : CoordState) (text : String)
    (isFinal : Bool) (h : s.isAvatarSpeaking = true) :
    step s (Event.utterance text isFinal) = (s, []) := by
  simp [step, onResult, h]

/-- A concrete state in which the avatar is speaking, used by witnesses. -/
def speakingState : CoordState :=
  { initialState with isAvatarSpeaking := true, hasStarted := true }

/-- Witness for C1 at a concrete speaking state and utterance. -/
theorem c1_self_echo_suppression_witness :
    speakingState.isAvatarSpeaking = true ∧
    step speakingState (Event.utterance "점수 알려줘" true) = (speakingState, []) :=
  ⟨rfl, c1_self_echo_suppression speakingState "점수 알려줘" true rfl⟩

/-- Helper for C8: a trace consisting only of interim utterance events can
change nothing but the interim transcript, and emits no effect. -/
theorem interim_trace_shape (texts : List String) (s : CoordState) :
    ∃ i, runTrace s (texts.map fun t => Event.utterance t false) =
      ({ s with interimTranscript := i }, []) := by
  induction texts generalizing s with
  | nil => exact ⟨s.interimTranscript, by simp [runTrace]⟩
  | cons t ts ih =>
      obtain ⟨hs, hg, ip, ias, il, isl, it, ch, un, us, ws, ap, pg, pd⟩ := s
      cases ias with
      | true =>
          obtain ⟨j, hj⟩ :=
            ih ⟨hs, hg, ip, true, il, isl, it, ch, un, us, ws, ap, pg, pd⟩
          exact ⟨j, by simp [runTrace, step, onResult, hj]⟩
      | false =>
          obtain ⟨j, hj⟩ :=
            ih ⟨hs, hg, ip, false, il, isl, t, ch, un, us, ws, ap, pg, pd⟩
          exact ⟨j, by simp [runTrace, step, onResult, hj]⟩

/-- Claim C8: a stream of interim recognition results (isFinal = false)
followed by no final result appends zero ConversationTurns, makes zero
chat-API calls (no effects at all), and changes nothing in the state beyond
the displayed interim transcript. -/
theorem c8_interim_results_inert (s : CoordState) (texts : List String) :
    (runTrace s (texts.map fun t => Event.utterance t false)).1.chatHistory =
      s.chatHistory ∧
    chatCalls (runTrace s (texts.map fun t => Event.utterance t false)).2 = 0 ∧
    (runTrace s (texts.map fun t => Event.utterance t false)).2 = [] ∧
    ∃ i, (runTrace s (texts.map fun t => Event.utterance t false)).1 =
      { s with interimTranscript := i } := by
  obtain ⟨i, hi⟩ := interim_trace_shape texts s
  rw [hi]
  exact ⟨rfl, rfl, rfl, i, rfl⟩

/-- Claim C10: generateChat sends the system prompt, then at most the last
10 entries of the supplied history (a suffix; the older prefix is dropped),
then the current user message, in that order; the supplied history itself
is left intact (slice is non-mutating, witnessed by the take/drop
decomposition of the unchanged list). -/
theorem c10_history_truncation (sp m : String) (h : List ChatRoute.ApiMessage) :
    ChatRoute.generateChatMessages sp h m =
      ⟨"system", sp⟩ :: (ChatRoute.sliceLast 10 h ++ [⟨"user", m⟩]) ∧
    (ChatRoute.sliceLast 10 h).length = min h.length 10 ∧
    List.IsSuffix (ChatRoute.sliceLast 10 h) h ∧
    h.take (h.length - 10) ++ ChatRoute.sliceLast 10 h = h := by
  refine ⟨rfl, ?_, ?_, ?_⟩
  · simp only [ChatRoute.sliceLast, List.length_drop]
    omega
  · exact List.drop_suffix _ _
  · exact List.take_append_drop _ _

/-- Counterexample for C7: the callChatAPI of
src/components/InteractiveAvatar.tsx, applied to a successfully parsed
error body (the route answers non-2xx with a body carrying only an error
field), hands undefined (none) back to the caller instead of a fallback
string. -/
theorem c7_counterexample :
    ChatApi.callChatAPITsx
      (ChatApi.FetchOutcome.jsonBody none (some "Failed to get response")) =
      none := rfl

/-- Claim C7 as amended: the part_001 wrapper returns a non-empty string on
every outcome (reply, server error string, or a fixed fallback — never a
throw, never undefined); the components/InteractiveAvatar.tsx wrapper
degrades to its fixed fallback only when fetch or JSON parsing throws,
and otherwise passes the body reply field through unchanged, undefined
included. -/
theorem c7_chat_api_degrades :
    (∀ o, ChatApi.callChatAPI o ≠ "") ∧
    ChatApi.callChatAPITsx ChatApi.FetchOutcome.fetchError =
      some "죄송합니다. 일시적인 오류가 발생했습니다." ∧
    (∀ r e, ChatApi.callChatAPITsx (ChatApi.FetchOutcome.jsonBody r e) = r) := by
  refine ⟨?_, rfl, fun r e => rfl⟩
  intro o
  match o with
  | ChatApi.FetchOutcome.fetchError => simp [ChatApi.callChatAPI]
  | ChatApi.FetchOutcome.jsonBody reply err =>
      match reply, err with
      | none, none => simp [ChatApi.callChatAPI, ChatApi.strTruthy]
      | none, some e =>
          by_cases he : e = "" <;>
            simp [ChatApi.callChatAPI, ChatApi.strTruthy, he]
      | some r, none =>
          by_cases hr : r = "" <;>
            simp [ChatApi.callChatAPI, ChatApi.strTruthy, hr]
      | some r, some e =>
          by_cases hr : r = "" <;> by_cases he : e = "" <;>
            simp [ChatApi.callChatAPI, ChatApi.strTruthy, hr, he]

/-- The single-flight invariant: the ghost pending counter agrees with the
isProcessing flag (the coordinator creates exactly one chat continuation
per accepted final utterance and clears the flag exactly when it resolves). -/
def ChatInv (s : CoordState) : Prop :=
  s.pending = (if s.isProcessing then 1 else 0)

/-- handleUserSpeech preserves the single-flight invariant. -/
theorem handleUserSpeech_chatInv (s : CoordState) (t : String)
    (h : ChatInv s) : ChatInv (handleUserSpeech s t).1 := by
  unfold handleUserSpeech
  split
  · exact h
  · split
    · exact h
    · rename_i h1 h2
      have hip : s.isProcessing = false := by
        revert h2
        cases s.isProcessing <;> simp
      unfold ChatInv at h ⊢
      rw [hip] at h
      simp at h
      simp [h]

/-- onResult preserves the single-flight invariant. -/
theorem onResult_chatInv (s : CoordState) (t : String) (isFinal : Bool)
    (h : ChatInv s) : ChatInv (onResult s t isFinal).1 := by
  unfold onResult
  split
  · exact h
  · split
    · exact handleUserSpeech_chatInv _ t h
    · exact h

/-- Resolution of a chat continuation preserves the single-flight invariant. -/
theorem chatReply_chatInv (s : CoordState) (reply : String) (ok : Bool)
    (h : ChatInv s) : ChatInv (step s (Event.chatReply reply ok)).1 := by
  simp only [step]
  split
  · exact h
  · rename_i hp
    have hip : s.isProcessing = true := by
      cases hq : s.isProcessing
      · exfalso
        unfold ChatInv at h
        rw [hq] at h
        simp at h
        exact hp h
      · rfl
    unfold ChatInv at h ⊢
    rw [hip] at h
    simp at h
    unfold chatReplyResolved
    simp [speakWithAvatar_pending, h]

/-- Every event other than the reset signal preserves the single-flight
invariant (reset clears isProcessing without cancelling the continuation). -/
theorem chatInv_step (s : CoordState) (e : Event)
    (hne : e ≠ Event.resetRequested) (h : ChatInv s) :
    ChatInv (step s e).1 := by
  cases e with
  | utterance t isFinal => exact onResult_chatInv s t isFinal h
  | chatReply reply ok => exact chatReply_chatInv s reply ok h
  | resetRequested => exact absurd rfl hne
  | avatarStart => exact h
  | avatarStop => exact h
  | stopSettle => exact h
  | streamReady =>
      simp only [step, onStreamReady]
      split
      · exact h
      · exact h
  | greetingSettle ok =>
      simp only [step, greetingSettleDone]
      split
      · exact h
      · unfold ChatInv at h ⊢
        simp [speakWithAvatar_pending, speakWithAvatar_isProcessing, h]
  | startRequested ok =>
      simp only [step, startSession]
      split
      · exact h
      · split
        · exact h
        · exact h
  | disconnected => exact h
  | unmounted => exact h

/-- The single-flight invariant holds along every reset-free trace. -/
theorem chatInv_runTrace (es : List Event) (s : CoordState)
    (hAll : ∀ e ∈ es, e ≠ Event.resetRequested) (h : ChatInv s) :
    ChatInv (runTrace s es).1 := by
  induction es generalizing s with
  | nil => exact h
  | cons e rest ih =>
      simp only [runTrace]
      exact ih (step s e).1
        (fun x hx => hAll x (List.mem_cons_of_mem e hx))
        (chatInv_step s e (hAll e (List.mem_cons_self e rest)) h)

/-- Claim C2: a final utterance arriving while isProcessing is true is
dropped rather than queued (no effect, no turn appended, no continuation
created); an accepted final utterance sets isProcessing before issuing
exactly one chat call; the resolution of the in-flight continuation sets
isProcessing back to false; and along every reset-free trace from the
initial state at most one ResponseGenerator call is ever pending. -/
theorem c2_at_most_one_in_flight :
    (∀ (s : CoordState) (t : String), s.isProcessing = true →
      (step s (Event.utterance t true)).2 = [] ∧
      (step s (Event.utterance t true)).1.chatHistory = s.chatHistory ∧
      (step s (Event.utterance t true)).1.pending = s.pending) ∧
    (∀ (s : CoordState) (t : String),
      s.isProcessing = false → s.isAvatarSpeaking = false → t.trim ≠ "" →
      (step s (Event.utterance t true)).1.isProcessing = true ∧
      chatCalls (step s (Event.utterance t true)).2 = 1) ∧
    (∀ (s : CoordState) (reply : String) (ok : Bool), s.pending ≠ 0 →
      (step s (Event.chatReply reply ok)).1.isProcessing = false ∧
      (step s (Event.chatReply reply ok)).1.pending = s.pending - 1) ∧
    (∀ es : List Event, (∀ e ∈ es, e ≠ Event.resetRequested) →
      (runTrace initialState es).1.pending ≤ 1) := by
  refine ⟨?_, ?_, ?_, ?_⟩
  · intro s t h
    cases hb : s.isAvatarSpeaking <;>
      simp [step, onResult, handleUserSpeech, h, hb]
  · intro s t h1 h2 h3
    cases hap : s.avatarPresent <;>
      simp [step, onResult, handleUserSpeech, h1, h2, h3, hap, chatCalls,
        isChatRequest]
  · intro s reply ok hp
    simp only [step]
    rw [if_neg hp]
    constructor
    · rfl
    · simp [chatReplyResolved, speakWithAvatar_pending]
  · intro es hAll
    have hinv := chatInv_runTrace es initialState hAll (by rfl)
    unfold ChatInv at hinv
    rw [hinv]
    split <;> simp

/-- A concrete state with a turn in flight, used by the C2 witness. -/
def processingState : CoordState :=
  { initialState with hasStarted := true, avatarPresent := true,
                      isProcessing := true, pending := 1 }

/-- Witness for C2: a concrete in-flight state drops a final utterance, and
a concrete reset-free trace keeps the pending count at most one. -/
theorem c2_at_most_one_in_flight_witness :
    (processingState.isProcessing = true ∧
      (step processingState (Event.utterance "배고파" true)).2 = [] ∧
      (step processingState (Event.utterance "배고파" true)).1.chatHistory =
        processingState.chatHistory ∧
      (step processingState (Event.utterance "배고파" true)).1.pending =
        processingState.pending) ∧
    ((runTrace initialState
        [Event.startRequested true, Event.utterance "점수 알려줘" true,
         Event.utterance "바로 이어서" true]).1.pending ≤ 1) :=
  ⟨⟨rfl, c2_at_most_one_in_flight.1 processingState "배고파" rfl⟩,
   c2_at_most_one_in_flight.2.2.2 _ (by decide)⟩

/-- The greeting computed by the STREAM_READY handler is never the empty
string: every branch begins with the same non-empty salutation. -/
theorem greetingText_ne_empty (u : String) (st : Option UserStats) :
    greetingText u st ≠ "" := by
  have h7 : ("안녕하세요, " : String).length = 7 := by decide
  have h0 : ("" : String).length = 0 := rfl
  intro h
  cases st with
  | none =>
      simp only [greetingText] at h
      have h2 := congrArg String.length h
      simp only [String.length_append, h7, h0] at h2
      omega
  | some st =>
      simp only [greetingText] at h
      split at h <;>
        (have h2 := congrArg String.length h
         simp only [String.length_append, h7, h0] at h2
         omega)

/-- When the avatar handle is present and the text non-empty,
speakWithAvatar issues exactly one speak attempt. -/
theorem speakWithAvatar_effects (s : CoordState) (text : String) (ok : Bool)
    (hap : s.avatarPresent = true) (ht : text ≠ "") :
    (speakWithAvatar s text ok).2 = [Effect.speak text] := by
  unfold speakWithAvatar
  rw [if_neg (by simp [hap, ht])]
  split <;> rfl

/-- State after one successful start request from the initial state. -/
def startedState : CoordState :=
  (step initialState (Event.startRequested true)).1

/-- The repeated-streamReady trace of claim C3: a second STREAM_READY
notification delivered while the first greeting sequence is still inside
its 1500 ms settle delay, then both delayed continuations run. -/
def doubleReadyTrace : List Event :=
  [Event.streamReady, Event.streamReady,
   Event.greetingSettle true, Event.greetingSettle true]

/-- Claim C3 fails on the code: the hasGreeted guard is read before the
settle delay and written only after the greeting has been spoken, so a
repeated streamReady arriving during the await of the first passes the
guard again and the greeting is dispatched to speak twice within one
session lifetime. -/
theorem c3_greeting_spoken_twice :
    speakCount (runTrace startedState doubleReadyTrace).2 = 2 ∧
    (runTrace startedState doubleReadyTrace).2 =
      [Effect.speak (greetingText "" none), Effect.speak (greetingText "" none)] ∧
    (runTrace startedState doubleReadyTrace).1.hasGreeted = true := by
  refine ⟨by decide, by decide, by decide⟩

/-- Two start requests in immediate succession (no stop or reset between
them) followed by the stream-ready greeting sequence of the one session
that was created. -/
def doubleStartTrace : List Event :=
  [Event.startRequested true, Event.startRequested true, Event.streamReady,
   Event.greetingSettle true]

/-- Claim C4: a start request while hasStarted is already true is a no-op
(no state change, no effect), and two start requests in succession from a
fresh state produce exactly one token fetch, one avatar session, and one
greeting utterance. -/
theorem c4_idempotent_start :
    (∀ (s : CoordState) (ok : Bool), s.hasStarted = true →
      step s (Event.startRequested ok) = (s, [])) ∧
    (∀ s : CoordState, s.hasStarted = false → s.hasGreeted = false →
      tokenFetches (runTrace s doubleStartTrace).2 = 1 ∧
      sessionInits (runTrace s doubleStartTrace).2 = 1 ∧
      speakCount (runTrace s doubleStartTrace).2 = 1) := by
  constructor
  · intro s ok h
    simp [step, startSession, h]
  · intro s h1 h2
    have hg := greetingText_ne_empty s.userName s.userStats
    simp [doubleStartTrace, runTrace, step, startSession, onStreamReady,
      greetingSettleDone, speakWithAvatar, h1, h2, hg, tokenFetches,
      sessionInits, speakCount, isTokenFetch, isInitAvatar, isSpeak]

/-- Witness for C4: the no-op start on a concrete already-started state,
and the effect counts of a concrete double start from the initial state. -/
theorem c4_idempotent_start_witness :
    (speakingState.hasStarted = true ∧
      step speakingState (Event.startRequested true) = (speakingState, [])) ∧
    (initialState.hasStarted = false ∧ initialState.hasGreeted = false ∧
      tokenFetches (runTrace initialState doubleStartTrace).2 = 1 ∧
      sessionInits (runTrace initialState doubleStartTrace).2 = 1 ∧
      speakCount (runTrace initialState doubleStartTrace).2 = 1) := by
  refine ⟨⟨rfl, c4_idempotent_start.1 speakingState true rfl⟩, rfl, rfl, ?_⟩
  exact c4_idempotent_start.2 initialState rfl rfl

/-- A concrete mid-conversation state: greeting done, nonempty history,
profile loaded, one turn in flight. -/
def midSessionState : CoordState :=
  { initialState with hasStarted := true, hasGreeted := true,
                      avatarPresent := true, isProcessing := true, pending := 1,
                      userName := "김철수",
                      userStats := some { total_games := 3, best_score := 250 },
                      chatHistory := [⟨Role.assistant, "안녕하세요"⟩,
                                      ⟨Role.user, "점수 알려줘"⟩],
                      webSpeech := some MicState.listening }

/-- Counterexample to C5 as stated: the disconnect reset signal leaves the
ConversationTurn log non-empty and the user profile and processing flag
untouched, contradicting teardown completeness for every reset signal. -/
theorem c5_counterexample :
    (step midSessionState Event.disconnected).1.chatHistory ≠ [] ∧
    (step midSessionState Event.disconnected).1.userName ≠ "" ∧
    (step midSessionState Event.disconnected).1.isProcessing = true := by
  refine ⟨by decide, by decide, by decide⟩

/-- The restart trace of the amended C5: one start request after the reset,
then the stream-ready greeting sequence. -/
def restartTrace : List Event :=
  [Event.startRequested true, Event.streamReady, Event.greetingSettle true]

/-- Claim C5 as amended: after resetSession() (the RESET_AVATAR / STOP_AVATAR
/ close-button path) the speech source is destroyed, the log is empty, the
profile and all session flags are cleared, and a subsequent start succeeds
and produces a fresh generic greeting; the disconnect handler however only
destroys the speech source and clears the two lifecycle flags, and the
unmount cleanup only destroys the speech source and stops the avatar,
both leaving log, profile and processing flag untouched. -/
theorem c5_teardown_amended :
    (∀ s : CoordState,
      (resetSession s).1.webSpeech = none ∧
      (resetSession s).1.chatHistory = [] ∧
      (resetSession s).1.userName = "" ∧
      (resetSession s).1.userStats = none ∧
      (resetSession s).1.hasStarted = false ∧
      (resetSession s).1.hasGreeted = false ∧
      (resetSession s).1.isProcessing = false ∧
      (resetSession s).1.isAvatarSpeaking = false) ∧
    (∀ s : CoordState,
      (runTrace (resetSession s).1 restartTrace).2 =
        [Effect.fetchToken, Effect.initAvatar, Effect.startAvatar,
         Effect.speak (greetingText "" none)]) ∧
    (∀ s : CoordState,
      (onStreamDisconnected s).1.chatHistory = s.chatHistory ∧
      (onStreamDisconnected s).1.userName = s.userName ∧
      (onStreamDisconnected s).1.userStats = s.userStats ∧
      (onStreamDisconnected s).1.isProcessing = s.isProcessing ∧
      (onStreamDisconnected s).1.webSpeech = none ∧
      (onStreamDisconnected s).1.hasStarted = false) ∧
    (∀ s : CoordState,
      (onUnmount s).1.chatHistory = s.chatHistory ∧
      (onUnmount s).1.isProcessing = s.isProcessing ∧
      (onUnmount s).1.webSpeech = none) := by
  refine ⟨?_, ?_, ?_, ?_⟩
  · intro s
    exact ⟨rfl, rfl, rfl, rfl, rfl, rfl, rfl, rfl⟩
  · intro s
    have hg : greetingText "" none ≠ "" := greetingText_ne_empty "" none
    simp [restartTrace, runTrace, step, resetSession, startSession,
      onStreamReady, greetingSettleDone, speakWithAvatar, hg]
  · intro s
    exact ⟨rfl, rfl, rfl, rfl, rfl, rfl⟩
  · intro s
    exact ⟨rfl, rfl, rfl⟩

/-- A concrete idle connected state: session live, nothing in flight. -/
def readyState : CoordState :=
  { initialState with hasStarted := true, hasGreeted := true,
                      avatarPresent := true,
                      webSpeech := some MicState.listening }

/-- Claim C6: a failing AvatarOutputSink.speak is absorbed inside
speakWithAvatar — the speaking flag is cleared, the recognizer resumed, and
the processing flag untouched (nothing is re-thrown, the function returns
normally on both outcomes) — and a full user turn started from a quiescent
state ends with isProcessing = false on every exit path: utterance dropped,
reply spoken successfully, or speak rejected. -/
theorem c6_speak_failure_recovery :
    (∀ (s : CoordState) (text : String),
      s.avatarPresent = true → text ≠ "" →
      (speakWithAvatar s text false).1.isAvatarSpeaking = false ∧
      (speakWithAvatar s text false).1.webSpeech = resumeMic s.webSpeech ∧
      (speakWithAvatar s text false).1.isProcessing = s.isProcessing) ∧
    (∀ (s : CoordState) (t reply : String) (ok : Bool),
      s.isProcessing = false → s.pending = 0 →
      (runTrace s
        [Event.utterance t true, Event.chatReply reply ok]).1.isProcessing =
        false) := by
  constructor
  · intro s text hap ht
    unfold speakWithAvatar
    rw [if_neg (by simp [hap, ht])]
    refine ⟨rfl, ?_, rfl⟩
    unfold resumeMic pauseMic
    cases s.webSpeech <;> rfl
  · intro s t reply ok h1 h2
    cases hb : s.isAvatarSpeaking
    · by_cases ht : t.trim = ""
      · simp [runTrace, step, onResult, handleUserSpeech, hb, ht, h1, h2,
          chatReplyResolved]
      · simp [runTrace, step, onResult, handleUserSpeech, hb, ht, h1, h2,
          chatReplyResolved]
    · simp [runTrace, step, onResult, hb, h1, h2]

/-- Witness for C6: a concrete failed speak clears the flags, and a
concrete turn with a failing speak still ends with isProcessing false. -/
theorem c6_speak_failure_recovery_witness :
    (readyState.avatarPresent = true ∧
      (speakWithAvatar readyState "안녕하세요!" false).1.isAvatarSpeaking = false ∧
      (speakWithAvatar readyState "안녕하세요!" false).1.webSpeech =
        resumeMic readyState.webSpeech ∧
      (speakWithAvatar readyState "안녕하세요!" false).1.isProcessing =
        readyState.isProcessing) ∧
    (runTrace readyState
      [Event.utterance "점수 알려줘" true,
       Event.chatReply "최고 점수는 250점이에요" false]).1.isProcessing = false :=
  ⟨⟨rfl, c6_speak_failure_recovery.1 readyState "안녕하세요!" rfl (by decide)⟩,
   c6_speak_failure_recovery.2 readyState "점수 알려줘" "최고 점수는 250점이에요"
     false rfl rfl⟩

/-- The recording VAD state of the C9 boundary counterexample: recording
began at time 0, silence has been tracked since time 0, and the gate is not
suppressed. -/
def vadBoundaryState : Vad.VadState :=
  { isProcessing := false, isLoadingCaptured := false, isAvatarTalking := false,
    micPresent := true, isRecording := true, silenceStart := some 0,
    recordingStart := some 0 }

/-- Counterexample to C9 as stated: at the tick at time 1500 the level is
below the silence threshold, the silence has lasted exactly
SILENCE_DURATION (at least it, as the claim requires) and the recording
exactly MIN_RECORDING_TIME is exceeded as well under the at-least reading —
yet the code keeps recording, because both of its comparisons are strict. -/
theorem c9_counterexample :
    (Vad.vadTick vadBoundaryState 0 1500).isRecording = true ∧
    (0 : ℚ) < Vad.SILENCE_THRESHOLD ∧
    Vad.SILENCE_DURATION ≤ 1500 - 0 ∧
    Vad.MIN_RECORDING_TIME ≤ 1500 - 0 := by
  refine ⟨by decide, by decide, by decide, by decide⟩

/-- Claim C9 as amended: a tick does nothing while isProcessing or
isAvatarTalking is set; otherwise (with the captured isLoading false, its
value in the deployed closure, and the mic stream present) a recording
begins iff the level exceeds SPEECH_THRESHOLD, and an ongoing recording
stops iff the level is below SILENCE_THRESHOLD, a silence timer is already
running, and the tracked silence strictly exceeds SILENCE_DURATION while
the recording age strictly exceeds MIN_RECORDING_TIME. -/
theorem c9_vad_hysteresis :
    (∀ (s : Vad.VadState) (level : ℚ) (now : Nat),
      s.isProcessing = true ∨ s.isAvatarTalking = true →
      Vad.vadTick s level now = s) ∧
    (∀ (s : Vad.VadState) (level : ℚ) (now : Nat),
      s.isProcessing = false → s.isLoadingCaptured = false →
      s.isAvatarTalking = false → s.micPresent = true → s.isRecording = false →
      ((Vad.vadTick s level now).isRecording = true ↔
        level > Vad.SPEECH_THRESHOLD)) ∧
    (∀ (s : Vad.VadState) (level : ℚ) (now : Nat),
      s.isProcessing = false → s.isLoadingCaptured = false →
      s.isAvatarTalking = false → s.isRecording = true →
      ((Vad.vadTick s level now).isRecording = false ↔
        (level < Vad.SILENCE_THRESHOLD ∧ ∃ t0, s.silenceStart = some t0 ∧
          now - t0 > Vad.SILENCE_DURATION ∧
          now - s.recordingStart.getD 0 > Vad.MIN_RECORDING_TIME))) := by
  refine ⟨?_, ?_, ?_⟩
  · intro s level now h
    unfold Vad.vadTick
    rcases h with h | h <;> simp [h]
  · intro s level now h1 h2 h3 h4 h5
    unfold Vad.vadTick Vad.startRecording
    simp [h1, h2, h3, h4, h5]
    split <;> simp_all
  · intro s level now h1 h2 h3 h4
    unfold Vad.vadTick Vad.stopRecording
    simp only [h1, h2, h3, h4]
    by_cases hlev : level < Vad.SILENCE_THRESHOLD
    · cases hss : s.silenceStart with
      | none => simp [hlev, hss, h4]
      | some t0 =>
          by_cases hcond : now - (s.recordingStart.getD 0) >
              Vad.MIN_RECORDING_TIME ∧ now - t0 > Vad.SILENCE_DURATION
          · simp [hlev, hss, hcond.1, hcond.2]
          · rw [not_and_or] at hcond
            rcases hcond with hc | hc <;> simp [hlev, hss, hc, h4]
    · simp [hlev, h4]

/-- Witness for C9: concrete ticks for each hypothesised branch — a
suppressed tick, a speech-start tick, and a silence-stop tick. -/
theorem c9_vad_hysteresis_witness :
    (Vad.vadTick { vadBoundaryState with isAvatarTalking := true }
        (mkRat 5 100) 2000 = { vadBoundaryState with isAvatarTalking := true }) ∧
    ((Vad.vadTick { vadBoundaryState with isRecording := false }
        (mkRat 5 100) 2000).isRecording = true ↔ mkRat 5 100 > Vad.SPEECH_THRESHOLD) ∧
    ((Vad.vadTick vadBoundaryState 0 2000).isRecording = false ↔
      ((0 : ℚ) < Vad.SILENCE_THRESHOLD ∧ ∃ t0,
        vadBoundaryState.silenceStart = some t0 ∧
        2000 - t0 > Vad.SILENCE_DURATION ∧
        2000 - vadBoundaryState.recordingStart.getD 0 >
          Vad.MIN_RECORDING_TIME)) :=
  ⟨c9_vad_hysteresis.1 _ (mkRat 5 100) 2000 (Or.inr rfl),
   c9_vad_hysteresis.2.1 _ (mkRat 5 100) 2000 rfl rfl rfl rfl rfl,
   c9_vad_hysteresis.2.2 vadBoundaryState 0 2000 rfl rfl rfl rfl⟩

/-- Witness for C5 at the concrete mid-session state: reset empties the
log and a restart replays the full fresh-start effect sequence, while
disconnect leaves the log as it was. -/
theorem c5_teardown_amended_witness :
    (resetSession midSessionState).1.chatHistory = [] ∧
    (runTrace (resetSession midSessionState).1 restartTrace).2 =
      [Effect.fetchToken, Effect.initAvatar, Effect.startAvatar,
       Effect.speak (greetingText "" none)] ∧
    (onStreamDisconnected midSessionState).1.chatHistory =
      midSessionState.chatHistory :=
  ⟨(c5_teardown_amended.1 midSessionState).2.1,
   c5_teardown_amended.2.1 midSessionState,
   (c5_teardown_amended.2.2.1 midSessionState).1⟩

/-- Witness for C7 at concrete outcomes: a thrown fetch degrades to a
non-empty string in the part_001 wrapper, and the tsx wrapper passes a
present reply through. -/
theorem c7_chat_api_degrades_witness :
    ChatApi.callChatAPI ChatApi.FetchOutcome.fetchError ≠ "" ∧
    ChatApi.callChatAPITsx
      (ChatApi.FetchOutcome.jsonBody (some "네, 도와드릴게요") none) =
      some "네, 도와드릴게요" :=
  ⟨c7_chat_api_degrades.1 ChatApi.FetchOutcome.fetchError,
   c7_chat_api_degrades.2.2 (some "네, 도와드릴게요") none⟩

/-- Witness for C8 at a concrete state and a concrete interim stream. -/
theorem c8_interim_results_inert_witness :
    (runTrace readyState
      (["안녕", "안녕하세", "안녕하세요"].map fun t =>
        Event.utterance t false)).1.chatHistory = readyState.chatHistory ∧
    chatCalls (runTrace readyState
      (["안녕", "안녕하세", "안녕하세요"].map fun t =>
        Event.utterance t false)).2 = 0 ∧
    (runTrace readyState
      (["안녕", "안녕하세", "안녕하세요"].map fun t =>
        Event.utterance t false)).2 = [] ∧
    ∃ i, (runTrace readyState
      (["안녕", "안녕하세", "안녕하세요"].map fun t =>
        Event.utterance t false)).1 =
      { readyState with interimTranscript := i } :=
  c8_interim_results_inert readyState ["안녕", "안녕하세", "안녕하세요"]

/-- A concrete twelve-entry history exercising the C10 truncation. -/
def longHistory : List ChatRoute.ApiMessage :=
  (List.range 12).map fun i => ⟨"user", toString i⟩

/-- Witness for C10 at the concrete twelve-entry history. -/
theorem c10_history_truncation_witness :
    ChatRoute.generateChatMessages "프롬프트" longHistory "추천해줘" =
      ⟨"system", "프롬프트"⟩ ::
        (ChatRoute.sliceLast 10 longHistory ++ [⟨"user", "추천해줘"⟩]) ∧
    (ChatRoute.sliceLast 10 longHistory).length = min longHistory.length 10 ∧
    List.IsSuffix (ChatRoute.sliceLast 10 longHistory) longHistory ∧
    longHistory.take (longHistory.length - 10) ++
      ChatRoute.sliceLast 10 longHistory = longHistory :=
  c10_history_truncation "프롬프트" "추천해줘" longHistory
